import Mathlib

/-!
Verification development for the railNL rail-network optimizer.

The repository models a rail network as a graph of stations (vertices) and
connections (edges), builds routes (ordered walks that may contain broken
`None` links), scores them, and improves a set of routes by hill climbing.

Shallow embedding conventions:
* Stations are identified by their (unique) name, a `String`; connections by
  their integer id, a `Nat`; durations and scores are rationals.
* The immutable part of the network (adjacency and durations, fixed after
  construction) is a `Graph`.
* The mutable registration sets (`Station._routes` / `Connection._routes`,
  Python `set`s of route ids) live in a `NetState`.
* Python `list` indexing / `insert` / `pop` semantics (negative indices,
  clamping on insert, `IndexError` on out-of-range get/pop) are modelled by
  the `py*` helpers; a raised exception is modelled as `none`, so every
  fallible route operation returns an `Option`.
-/

/-- Python `list.insert` position clamping together with negative-index
handling: the element lands at `max 0 (len + i)` for `i < 0` and at
`min i len` otherwise.  Insertion itself never fails. -/
def listInsertAt {α : Type} : Nat → α → List α → List α
  | 0, x, xs => x :: xs
  | _ + 1, x, [] => [x]
  | n + 1, x, y :: ys => y :: listInsertAt n x ys

/-- Normalisation of a Python index: negative indices count from the end. -/
def pyNorm (i : Int) (n : Nat) : Int :=
  if i < 0 then i + n else i

/-- Python `xs[i]`: negative indices count from the end, out-of-range
indexing raises `IndexError` (modelled as `none`). -/
def pyGetElem? {α : Type} (xs : List α) (i : Int) : Option α :=
  let j := pyNorm i xs.length
  if 0 ≤ j then xs[j.toNat]? else none

/-- Python `xs[i] = x`: same index semantics as `pyGetElem?`; returns the
updated list or `none` on `IndexError`. -/
def pySetElem? {α : Type} (xs : List α) (i : Int) (x : α) : Option (List α) :=
  let j := pyNorm i xs.length
  if 0 ≤ j ∧ j.toNat < xs.length then some (xs.set j.toNat x) else none

/-- Python `xs.insert(i, x)` (total: the position is clamped into range). -/
def pyInsert {α : Type} (xs : List α) (i : Int) (x : α) : List α :=
  let j : Int := if i < 0 then max 0 (i + xs.length) else min i xs.length
  listInsertAt j.toNat x xs

/-- Python `xs.pop(i)`: returns the removed element and the remaining list,
or `none` on `IndexError`. -/
def pyPop {α : Type} (xs : List α) (i : Int) : Option (α × List α) :=
  let j := pyNorm i xs.length
  if h : 0 ≤ j ∧ j.toNat < xs.length then
    some (xs.get ⟨j.toNat, h.2⟩, xs.eraseIdx j.toNat)
  else none

theorem listInsertAt_length {α : Type} :
    ∀ (n : Nat) (x : α) (xs : List α), (listInsertAt n x xs).length = xs.length + 1 := by
  intro n
  induction n with
  | zero => intro x xs; rfl
  | succ n ih =>
    intro x xs
    cases xs with
    | nil => rfl
    | cons y ys => simp [listInsertAt, ih]

theorem pyInsert_length {α : Type} (xs : List α) (i : Int) (x : α) :
    (pyInsert xs i x).length = xs.length + 1 := by
  simp [pyInsert, listInsertAt_length]

/-! ## Station and Connection (src/railNL/classes/station.py, connection.py)

Both classes hold a mutable Python `set` of route ids (`_routes`), modelled
as a `Finset Nat`.  Adjacency (`Station._connections`) is immutable after
network construction and lives in `Graph` below. -/

/-- Python `set.add`: idempotent insertion. -/
def addRouteSet (routes : Finset Nat) (routeID : Nat) : Finset Nat :=
  insert routeID routes

/-- `removeRoute` body shared by `Station` and `Connection`:
`if routeID in self._routes: self._routes.remove(routeID)`. -/
def removeRouteSet (routes : Finset Nat) (routeID : Nat) : Finset Nat :=
  if routeID ∈ routes then routes.erase routeID else routes

/-- A `Station` node: its unique name and the set of registered route ids. -/
structure Station where
  name : String
  routes : Finset Nat

/-- `Station.addRoute`: adds a route id to the set of routes. -/
def Station.addRoute (s : Station) (routeID : Nat) : Station :=
  { s with routes := addRouteSet s.routes routeID }

/-- `Station.removeRoute`: removes a route id from the set, guarded by a
membership test so an absent id is a no-op. -/
def Station.removeRoute (s : Station) (routeID : Nat) : Station :=
  { s with routes := removeRouteSet s.routes routeID }

/-- A `Connection` node: its id, its duration, and the set of registered
route ids.  The endpoint pair is kept in `Graph.adj`. -/
structure Connection where
  uid : Nat
  duration : ℚ
  routes : Finset Nat

/-- `Connection.addRoute`: adds a route id to the set of routes. -/
def Connection.addRoute (c : Connection) (routeID : Nat) : Connection :=
  { c with routes := addRouteSet c.routes routeID }

/-- `Connection.removeRoute`: removes a route id from the set, guarded by a
membership test so an absent id is a no-op. -/
def Connection.removeRoute (c : Connection) (routeID : Nat) : Connection :=
  { c with routes := removeRouteSet c.routes routeID }

/-! ## The immutable graph and the mutable registration state -/

/-- The immutable part of the network: per-station adjacency in dictionary
order (`Station._connections`, a dict from neighbour name to the connection
node) and the duration of every connection.  Adjacency never changes after
construction. -/
structure Graph where
  adj : String → List (String × Nat)
  dur : Nat → ℚ

/-- Pointwise update of a map, used for the mutable registration state. -/
def upd {α β : Type} [DecidableEq α] (f : α → β) (a : α) (b : β) : α → β :=
  fun x => if x = a then b else f x

/-- The mutable registration state: route-id sets of every station and of
every connection (the only data mutated after network construction). -/
structure NetState where
  stationRoutes : String → Finset Nat
  connRoutes : Nat → Finset Nat

/-- The registration state of a freshly built network: no route visits
any station or connection. -/
def NetState.empty : NetState :=
  ⟨fun _ => ∅, fun _ => ∅⟩

/-- `station.addRoute(routeID)` performed on the station named `s`. -/
def NetState.addStationRoute (net : NetState) (s : String) (routeID : Nat) : NetState :=
  { net with stationRoutes := upd net.stationRoutes s (addRouteSet (net.stationRoutes s) routeID) }

/-- `station.removeRoute(routeID)` performed on the station named `s`. -/
def NetState.removeStationRoute (net : NetState) (s : String) (routeID : Nat) : NetState :=
  { net with stationRoutes := upd net.stationRoutes s (removeRouteSet (net.stationRoutes s) routeID) }

/-- `connection.addRoute(routeID)` performed on the connection with id `c`. -/
def NetState.addConnRoute (net : NetState) (c : Nat) (routeID : Nat) : NetState :=
  { net with connRoutes := upd net.connRoutes c (addRouteSet (net.connRoutes c) routeID) }

/-- `connection.removeRoute(routeID)` performed on the connection with id `c`. -/
def NetState.removeConnRoute (net : NetState) (c : Nat) (routeID : Nat) : NetState :=
  { net with connRoutes := upd net.connRoutes c (removeRouteSet (net.connRoutes c) routeID) }

/-! ## Route (src/railNL/classes/route.py)

A route references stations by name and connections by id; a `none` entry in
`connections` is a broken link.  Every mutating method threads the
registration state, so it acts on a `RouteState`; a Python exception
(`IndexError`, `AttributeError`) is modelled by returning `none`. -/

/-- The data of a `Route` object: `_id`, `_stations`, `_connections`. -/
structure Route where
  uid : Nat
  stations : List String
  connections : List (Option Nat)
deriving DecidableEq

/-- A route together with the registration state it mutates. -/
structure RouteState where
  route : Route
  net : NetState

/-- `Route.__init__(rootStation, uid)`: a route seeded with its root
station, no connections, registered on the root. -/
def routeInit (net : NetState) (root : String) (uid : Nat) : RouteState :=
  { route := ⟨uid, [root], []⟩, net := net.addStationRoute root uid }

/-- `Route.duration`: total duration of the present (non-`None`)
connections. -/
def Route.duration (g : Graph) (rt : Route) : ℚ :=
  rt.connections.foldl
    (fun acc c => match c with
      | some cid => acc + g.dur cid
      | none => acc) 0

/-- `Route.length`: the number of connection slots. -/
def Route.length (rt : Route) : Nat :=
  rt.connections.length

/-- `Route.nStations`: the number of stations. -/
def Route.nStations (rt : Route) : Nat :=
  rt.stations.length

/-- `Route._findConnection(station1, station2)`: the guarded adjacency
lookup `station1.hasConnection(station2.name())` followed by
`station1.getConnection(station2.name())`, collapsed into one dictionary
lookup returning `none` when the stations are not adjacent. -/
def Route.findConnection (g : Graph) (s1 s2 : String) : Option Nat :=
  List.lookup s2 (g.adj s1)

/-- `Route._insertConnection(stationIndex, connectionIndex)`: looks up the
connection between the station at `stationIndex` and its route neighbour
(the next station for index 0, the previous one otherwise), registers the
route on it when found, and inserts it (possibly `none`) at
`connectionIndex`. -/
def RouteState.insertConnection (g : Graph) (st : RouteState)
    (stationIndex connectionIndex : Int) : Option RouteState := do
  let stationA ← pyGetElem? st.route.stations stationIndex
  let stationB ← pyGetElem? st.route.stations
    (if stationIndex = 0 then stationIndex + 1 else stationIndex - 1)
  let connection := Route.findConnection g stationA stationB
  let net := match connection with
    | some c => st.net.addConnRoute c st.route.uid
    | none => st.net
  some { route := { st.route with
           connections := pyInsert st.route.connections connectionIndex connection },
         net := net }

/-- `Route._replaceConnection(stationIndex, connectionIndex)`: overwrites the
connection slot at `connectionIndex` with the connection between the
stations at `stationIndex` and `stationIndex + 1`.  When the superseded
connection is not `None` and no longer occurs in the route, the source
calls `removeRoute` on `self._connections[connectionIndex]` — the slot just
overwritten, i.e. the *new* connection; when that new entry is `None` this
is `None.removeRoute(...)`, an `AttributeError` (modelled as `none`). -/
def RouteState.replaceConnection (g : Graph) (st : RouteState)
    (stationIndex connectionIndex : Int) : Option RouteState := do
  let oldConnection ← pyGetElem? st.route.connections connectionIndex
  let stationA ← pyGetElem? st.route.stations stationIndex
  let stationB ← pyGetElem? st.route.stations (stationIndex + 1)
  let newConnection := Route.findConnection g stationA stationB
  let conns ← pySetElem? st.route.connections connectionIndex newConnection
  let st1 : RouteState := { st with route := { st.route with connections := conns } }
  match oldConnection with
  | none => some st1
  | some oc =>
    if (some oc) ∈ conns then some st1
    else
      match newConnection with
      | none => none
      | some nc => some { st1 with net := st1.net.removeConnRoute nc st1.route.uid }

/-- `Route.insertStation(stationIndex, station)`: inserts the station,
registers the route on it, then (unless the route was empty) normalises a
negative index by adding the *post-insertion* station count, inserts the
connection at the affected boundary and, strictly inside the sequence,
replaces the superseded spanning connection. -/
def RouteState.insertStation (g : Graph) (st : RouteState)
    (stationIndex : Int) (station : String) : Option RouteState :=
  let stations1 := pyInsert st.route.stations stationIndex station
  let st1 : RouteState :=
    { route := { st.route with stations := stations1 },
      net := st.net.addStationRoute station st.route.uid }
  if stations1.length = 1 then some st1
  else
    let si := if stationIndex < 0 then stationIndex + stations1.length else stationIndex
    let ci := if si = 0 then 0 else si - 1
    do
      let st2 ← RouteState.insertConnection g st1 si ci
      if si < (st2.route.stations.length : Int) - 1 ∧ si ≠ 0 then
        RouteState.replaceConnection g st2 si si
      else some st2

/-- `Route.appendStation(station)`: `insertStation(self.nStations(), station)`. -/
def RouteState.appendStation (g : Graph) (st : RouteState) (station : String) :
    Option RouteState :=
  RouteState.insertStation g st (st.route.stations.length : Int) station

/-- `Route._removeConnection(connectionIndex)`: pops the connection slot and
unregisters the route from it when it is a real connection that no longer
occurs in the route. -/
def RouteState.removeConnection (st : RouteState) (connectionIndex : Int) :
    Option RouteState := do
  let (connection, conns) ← pyPop st.route.connections connectionIndex
  let st1 : RouteState := { st with route := { st.route with connections := conns } }
  match connection with
  | none => some st1
  | some c =>
    if (some c) ∈ conns then some st1
    else some { st1 with net := st1.net.removeConnRoute c st1.route.uid }

/-- `Route._removeConnections(stationIndex)`: removes the (up to two)
connection slots around the already-popped station position. -/
def RouteState.removeConnections (st : RouteState) (stationIndex : Int) :
    Option RouteState :=
  if st.route.connections.length = 0 then some st
  else do
    let st1 ←
      if stationIndex < (st.route.stations.length : Int) then
        RouteState.removeConnection st stationIndex
      else some st
    if stationIndex > 0 then RouteState.removeConnection st1 (stationIndex - 1)
    else some st1

/-- `Route.popStation(stationIndex)`: normalises a negative index by adding
the pre-pop station count, pops the station (`list.pop` re-applies Python
negative-index handling), unregisters the route from it unless it still
occurs, removes the surrounding connections and, for an interior removal,
reconnects the new neighbours when a direct edge exists. -/
def RouteState.popStation (g : Graph) (st : RouteState) (stationIndex : Int) :
    Option RouteState := do
  let si := if stationIndex < 0 then stationIndex + st.route.stations.length
            else stationIndex
  let (station, stations1) ← pyPop st.route.stations si
  let net1 := if station ∈ stations1 then st.net
              else st.net.removeStationRoute station st.route.uid
  let st1 : RouteState := { route := { st.route with stations := stations1 }, net := net1 }
  let st2 ← RouteState.removeConnections st1 si
  if si ≠ 0 ∧ si ≠ (st2.route.stations.length : Int) ∧ st2.route.stations.length > 1 then
    RouteState.insertConnection g st2 si (si - 1)
  else some st2

/-- `Route.getOpenStations`: raises (`none`) on a route without stations;
otherwise the two endpoints `self._stations[0]` and
`self._stations[self.nStations() - 1]` with their indexes. -/
def Route.getOpenStations (rt : Route) : Option (List (String × Nat)) :=
  if rt.stations.length = 0 then none
  else do
    let a ← rt.stations[0]?
    let b ← rt.stations[rt.stations.length - 1]?
    some [(a, 0), (b, rt.stations.length - 1)]

/-- `Station.listStations` with the three optional annotation flags `False`
(as at every call site of the optimizer): the adjacent stations in
dictionary order paired with the duration of the shared connection. -/
def Station.listStationsOf (g : Graph) (name : String) : List (String × ℚ) :=
  (g.adj name).map (fun p => (p.1, g.dur p.2))

/-- `Route.hasLegalMoves(tMax)`: `False` immediately when the current
duration already reaches `tMax`, otherwise whether some endpoint has an
adjacent station whose connection keeps the duration strictly below
`tMax`. -/
def Route.hasLegalMoves (g : Graph) (rt : Route) (tMax : ℚ) : Option Bool :=
  let currentDuration := Route.duration g rt
  if tMax ≤ currentDuration then some false
  else do
    let os ← Route.getOpenStations rt
    some (os.any (fun p =>
      (Station.listStationsOf g p.1).any (fun q =>
        decide (currentDuration + q.2 < tMax))))

/-- `Route.getLegalMoves(tMax)` with all optional filters disabled: for each
open endpoint not already keyed, the adjacent stations whose connection
keeps the duration strictly below `tMax`; endpoints with no candidates get
no entry.  The dict keyed by station index is modelled as an association
list built in iteration order. -/
def Route.getLegalMoves (g : Graph) (rt : Route) (tMax : ℚ) :
    Option (List (Nat × List (String × ℚ))) := do
  let currentDuration := Route.duration g rt
  let os ← Route.getOpenStations rt
  some (os.foldl
    (fun acc p =>
      if p.2 ∈ acc.map Prod.fst then acc
      else
        let legalStations := (Station.listStationsOf g p.1).filter
          (fun q => decide (currentDuration + q.2 < tMax))
        if legalStations = [] then acc else acc ++ [(p.2, legalStations)])
    [])

/-- `Route.isValid(tMax)`: at least one connection slot, no broken (`None`)
slot, and — only when `tMax` is not `0` — total duration strictly below
`tMax`. -/
def Route.isValid (g : Graph) (rt : Route) (tMax : ℚ) : Bool :=
  if rt.connections.length = 0 then false
  else if none ∈ rt.connections then false
  else if tMax = 0 then true
  else decide (Route.duration g rt < tMax)

/-- `Route.uniqueConnections`: `len(np.unique(self._connections))`, the
number of *distinct* entries of the connection list (a `None` entry counts
as a value of its own). -/
def Route.uniqueConnections (rt : Route) : Nat :=
  rt.connections.dedup.length

/-- `Route.routeScore(totalConnections)`:
`uniqueConnections / totalConnections * 10000 - (100 + duration)`. -/
def Route.routeScore (g : Graph) (rt : Route) (totalConnections : Nat) : ℚ :=
  (Route.uniqueConnections rt : ℚ) / (totalConnections : ℚ) * 10000
    - (100 + Route.duration g rt)

/-- The number of entries of a connection list occurring exactly once in it;
this is the reading of `uniqueConnectionCount` used by the specification
("connections occurring exactly once within the route's own sequence"). -/
def countOccurringOnce (l : List (Option Nat)) : Nat :=
  (l.filter (fun c => l.count c = 1)).length

/-! ## HillClimber (src/railNL/algorithms/hillClimber_Finn_Simon.py)

The optimizer state: the working copy of the network, the previously
retained copy, the best score so far, the accepted score history and the
iteration counter.  The network model is abstract (`M`); `deepcopy` is the
identity of value semantics; the per-iteration randomized mutation of the
working copy (`mutateRoute`'s loop body) is an oracle `μ : M → M`; scoring
(`RailNetwork.score`, outside src/) is an oracle `f : M → ℚ`. -/

structure HillClimber (M : Type) where
  workModel : M
  previousModel : M
  score : ℚ
  scores : List (Nat × ℚ)
  iteration : Nat

/-- `HillClimber.mutateRoute`: retains `previousModel = deepcopy(workModel)`
and mutates every route of the working copy in place (the whole randomized
batch is the oracle `μ`). -/
def HillClimber.mutateRoute {M : Type} (μ : M → M) (s : HillClimber M) : HillClimber M :=
  { s with previousModel := s.workModel, workModel := μ s.workModel }

/-- `HillClimber.checkSolution`: accepts the mutated working copy iff its
score is at least the retained best score; on accept the retained best
score and the score history are updated, on reject the previously retained
model becomes the working copy again. -/
def HillClimber.checkSolution {M : Type} (f : M → ℚ) (s : HillClimber M) : HillClimber M :=
  let newScore := f s.workModel
  if s.score ≤ newScore then
    { s with score := newScore, scores := s.scores ++ [(s.iteration, newScore)] }
  else
    { s with workModel := s.previousModel }

/-- One iteration of `HillClimber.run`:
`self.checkSolution(self.mutateRoute())` followed by the iteration count
update. -/
def HillClimber.runStep {M : Type} (f : M → ℚ) (μ : M → M) (s : HillClimber M) :
    HillClimber M :=
  let s1 := HillClimber.checkSolution f (HillClimber.mutateRoute μ s)
  { s1 with iteration := s1.iteration + 1 }

/-- `HillClimber.run`: the fixed iteration budget is the length of the list
of per-iteration mutation oracles. -/
def HillClimber.run {M : Type} (f : M → ℚ) (μs : List (M → M)) (s : HillClimber M) :
    HillClimber M :=
  μs.foldl (fun t μ => HillClimber.runStep f μ t) s

/-! ## Concrete fixtures

Small networks used to settle the claims on explicit inputs.  Connection
ids: see each graph's comment. -/

/-- Triangle network plus: stations `A`, `B`, `D`; connections
`0 = A-B`, `1 = A-D`, `2 = D-B`, each of duration 1. -/
def gT : Graph :=
  { adj := fun s =>
      if s = "A" then [("B", 0), ("D", 1)]
      else if s = "B" then [("A", 0), ("D", 2)]
      else if s = "D" then [("A", 1), ("B", 2)]
      else [],
    dur := fun _ => 1 }

/-- Sparse network: stations `A`, `C`, `D`; a single connection `0 = A-C`
of duration 1; `D` is isolated. -/
def gC : Graph :=
  { adj := fun s =>
      if s = "A" then [("C", 0)]
      else if s = "C" then [("A", 0)]
      else [],
    dur := fun _ => 1 }

/-- Line network: stations `A`, `B`, `C`; connections `0 = A-B` (duration
10) and `1 = B-C` (duration 15). -/
def gL : Graph :=
  { adj := fun s =>
      if s = "A" then [("B", 0)]
      else if s = "B" then [("A", 0), ("C", 1)]
      else if s = "C" then [("B", 1)]
      else [],
    dur := fun c => if c = 0 then 10 else 15 }

/-- Route 7 on `gT` built by `createRoute("A")` then `appendStation("B")`. -/
def stAB : Option RouteState :=
  RouteState.appendStation gT (routeInit NetState.empty "A" 7) "B"

/-- The C1 scenario: continue `stAB` with `insertStation(1, "D")`, replacing
the spanning `A-B` connection by `A-D` and `D-B`. -/
def c1Run : Option RouteState := do
  let st1 ← stAB
  RouteState.insertStation gT st1 1 "D"

/-- The C6 scenario: route 3 on `gC` built from root `A` and
`appendStation("C")` (connections `[some 0]`), then `insertStation(1, "D")`
where neither `A-D` nor `D-C` exists. -/
def c6Run : Option RouteState := do
  let st1 ← RouteState.appendStation gC (routeInit NetState.empty "A" 3) "C"
  RouteState.insertStation gC st1 1 "D"

/-- Route 1 on `gL` built by `createRoute("A")`, `appendStation("B")`,
`appendStation("C")`: stations `[A, B, C]`, connections `[some 0, some 1]`. -/
def stABC : Option RouteState := do
  let st1 ← RouteState.appendStation gL (routeInit NetState.empty "A" 1) "B"
  RouteState.appendStation gL st1 "C"

/-- The C4 scenario: `popStation(-4)` on the three-station route `stABC`. -/
def c4Run : Option RouteState := do
  let st ← stABC
  RouteState.popStation gL st (-4)

/-- Route 9 on `gL` with a repeated connection: `createRoute("A")`,
`appendStation("B")`, `appendStation("A")` — stations `[A, B, A]`,
connections `[some 0, some 0]`. -/
def stABA : Option RouteState := do
  let st1 ← RouteState.appendStation gL (routeInit NetState.empty "A" 9) "B"
  RouteState.appendStation gL st1 "A"

/-! ## Claims -/

/-- C1: the claim states that after any append/insert/pop sequence a
station or connection occurs in the route's own sequences iff the route id
is registered on it.  The code violates this: `_replaceConnection` never
registers the route on the replacement connection and calls `removeRoute`
on the slot it just overwrote (the new connection) instead of the
superseded one.  After `createRoute("A")`, `appendStation("B")`,
`insertStation(1, "D")` on the triangle network, connection `2` (`D-B`)
occurs in the route but route 7 is not registered on it, while connection
`0` (`A-B`) no longer occurs but still carries route 7. -/
theorem claim1_registration_bug :
    c1Run.map (fun s =>
      (decide ((some 2) ∈ s.route.connections), decide (7 ∈ s.net.connRoutes 2),
       decide ((some 0) ∈ s.route.connections), decide (7 ∈ s.net.connRoutes 0)))
      = some (true, false, false, true) := by
  decide

/-- C4: the claim states that every append/insert/pop leaves
`len(connections) = len(stations) - 1` (`0` when no stations).  The code
violates it: `popStation(-4)` on the three-station route `[A, B, C]`
normalises the index once to `-1`, `list.pop` re-normalises it to the tail,
and the interior-reconnection branch then runs with the stale index `-1`,
inserting an extra `A-B` connection: the result has 2 stations and 2
connections. -/
theorem claim4_length_invariant_bug :
    c4Run.map (fun s => (s.route.stations.length, s.route.connections.length))
      = some (2, 2) := by
  decide

/-- C6: the claim states that inserting `D` between `A` and `C` (no `A-D`
or `D-C` edge) turns the single spanning connection into `[None, None]`
with updated bookkeeping and `isValid() = False`.  The code instead raises
`AttributeError`: `_replaceConnection` writes `None` into the slot and then
calls `.removeRoute` on that freshly written `None`.  The whole
`insertStation(1, "D")` call aborts (modelled as `none`). -/
theorem claim6_insert_between_crash : c6Run = none := by
  rfl

/-- C8: the claim states that `insertStation` with a negative in-range
index `i` behaves like the call with index `n + i`.  The code places the
station at position `n + i` but normalises the index by the
*post-insertion* length `n + 1`, deriving the boundary connections one
position too far: on the route `[A, B]` in the triangle network,
`insertStation(-1, "D")` yields connections `[A-B, D-B]` while the
equivalent `insertStation(1, "D")` yields `[A-D, D-B]`. -/
theorem claim8_negative_insert_bug :
    (stAB.bind (fun s => RouteState.insertStation gT s (-1) "D")).map
        (fun t => (t.route.stations, t.route.connections))
      = some (["A", "D", "B"], [some 0, some 2]) ∧
    (stAB.bind (fun s => RouteState.insertStation gT s 1 "D")).map
        (fun t => (t.route.stations, t.route.connections))
      = some (["A", "D", "B"], [some 1, some 2]) := by
  constructor <;> decide

/-- C9: `addRoute` with an already-present id and `removeRoute` with an
absent id are no-ops on both `Station` and `Connection`, and neither ever
raises (both operations are total). -/
theorem claim9_addRoute_removeRoute_noop (s t : Station) (c d : Connection)
    (routeID : Nat) :
    (routeID ∈ s.routes → s.addRoute routeID = s) ∧
    (routeID ∉ t.routes → t.removeRoute routeID = t) ∧
    (routeID ∈ c.routes → c.addRoute routeID = c) ∧
    (routeID ∉ d.routes → d.removeRoute routeID = d) := by
  refine ⟨fun h => ?_, fun h => ?_, fun h => ?_, fun h => ?_⟩
  · simp [Station.addRoute, addRouteSet, Finset.insert_eq_self.mpr h]
  · simp [Station.removeRoute, removeRouteSet, h]
  · simp [Connection.addRoute, addRouteSet, Finset.insert_eq_self.mpr h]
  · simp [Connection.removeRoute, removeRouteSet, h]

/-- Witness for C9 at concrete stations, connections and route id 7. -/
theorem claim9_witness :
    (Station.addRoute ⟨"A", {7}⟩ 7 = ⟨"A", {7}⟩) ∧
    (Station.removeRoute ⟨"B", {3}⟩ 7 = ⟨"B", {3}⟩) ∧
    (Connection.addRoute ⟨0, 1, {7}⟩ 7 = ⟨0, 1, {7}⟩) ∧
    (Connection.removeRoute ⟨1, 2, ∅⟩ 7 = ⟨1, 2, ∅⟩) := by
  obtain ⟨h1, h2, h3, h4⟩ :=
    claim9_addRoute_removeRoute_noop ⟨"A", {7}⟩ ⟨"B", {3}⟩ ⟨0, 1, {7}⟩ ⟨1, 2, ∅⟩ 7
  exact ⟨h1 (by decide), h2 (by decide), h3 (by decide), h4 (by decide)⟩


/-- The route data produced by `stABA`: stations `[A, B, A]` over the line
network, using the `A-B` connection twice. -/
def rtABA : Route := ⟨9, ["A", "B", "A"], [some 0, some 0]⟩

/-- C2, counterexample to the claim as stated: on the route `[A, B, A]`
over the line network (connections `[A-B, A-B]`, duration 20, reachable by
`createRoute("A")`, `appendStation("B")`, `appendStation("A")`) with
`totalConnections = 1`, the code's `routeScore` is
`1/1 * 10000 - 120 = 9880` because `np.unique` counts *distinct*
connections, while the claim's exactly-once count gives
`0/1 * 10000 - 120 = -120`. -/
theorem claim2_routeScore_counterexample :
    stABA.map (fun s => s.route) = some rtABA ∧
    Route.routeScore gL rtABA 1 = 9880 ∧
    (countOccurringOnce rtABA.connections : ℚ) / (1 : ℚ) * 10000
        - (100 + Route.duration gL rtABA) = -120 ∧
    (9880 : ℚ) ≠ -120 := by
  have hdur : Route.duration gL rtABA = 20 := by
    simp [Route.duration, rtABA, gL]
    norm_num
  have huniq : Route.uniqueConnections rtABA = 1 := by decide
  have honce : countOccurringOnce rtABA.connections = 0 := by decide
  refine ⟨by decide, ?_, ?_, by norm_num⟩
  · unfold Route.routeScore
    rw [hdur, huniq]
    norm_num
  · rw [hdur, honce]
    norm_num

/-- C2, amended: for every route whose connection sequence has no `None`
entry and every positive `totalConnections`, `routeScore` returns
`(distinctConnectionCount / totalConnections) * 10000 - (100 + duration)`,
where `distinctConnectionCount` is the number of distinct connections of
the route's own sequence (its cardinality as a finite set). -/
theorem claim2_routeScore_distinct (g : Graph) (rt : Route) (totalConnections : Nat)
    (hpos : 0 < totalConnections) (hnb : none ∉ rt.connections) :
    Route.routeScore g rt totalConnections =
      (rt.connections.toFinset.card : ℚ) / (totalConnections : ℚ) * 10000
        - (100 + Route.duration g rt) := by
  unfold Route.routeScore Route.uniqueConnections
  rw [List.card_toFinset]

/-- Witness for C2's amended claim on the `[A, B, A]` route. -/
theorem claim2_routeScore_distinct_witness :
    0 < 1 ∧ none ∉ rtABA.connections ∧
    Route.routeScore gL rtABA 1 =
      (rtABA.connections.toFinset.card : ℚ) / ((1 : Nat) : ℚ) * 10000
        - (100 + Route.duration gL rtABA) :=
  ⟨by decide, by decide, claim2_routeScore_distinct gL rtABA 1 (by decide) (by decide)⟩

/-- C5: `isValid(tMax)` is `True` iff the route has at least one connection
slot, no `None` slot, and — when `tMax` is not `0` — duration strictly
below `tMax`; `tMax = 0` checks structural validity only. -/
theorem claim5_isValid_iff (g : Graph) (rt : Route) (tMax : ℚ) (h : 0 ≤ tMax) :
    Route.isValid g rt tMax = true ↔
      (rt.connections ≠ [] ∧ none ∉ rt.connections ∧
        (tMax ≠ 0 → Route.duration g rt < tMax)) := by
  unfold Route.isValid
  split_ifs with h1 h2 h3
  · simp [List.length_eq_zero.mp h1]
  · simp [h2]
  · have hne : rt.connections ≠ [] := fun he => h1 (by simp [he])
    simp [hne, h2, h3]
  · have hne : rt.connections ≠ [] := fun he => h1 (by simp [he])
    simp [hne, h2, h3]

/-- The route data produced by `stABC`: stations `[A, B, C]` over the line
network with connections `[A-B, B-C]`. -/
def rtABC : Route := ⟨1, ["A", "B", "C"], [some 0, some 1]⟩

/-- Witness for C5 on the route `[A, B, C]` of the line network with
`tMax = 30`. -/
theorem claim5_witness :
    (0 : ℚ) ≤ 30 ∧
    (Route.isValid gL rtABC 30 = true ↔
      (rtABC.connections ≠ [] ∧ none ∉ rtABC.connections ∧
        ((30 : ℚ) ≠ 0 → Route.duration gL rtABC < 30))) :=
  ⟨by norm_num, claim5_isValid_iff gL rtABC 30 (by norm_num)⟩

/-- On a route with at least one station, `getOpenStations` returns the
head with index `0` and the last station with index `nStations() - 1`. -/
theorem getOpenStations_cons (u : Nat) (s : String) (rest : List String)
    (conns : List (Option Nat)) :
    Route.getOpenStations ⟨u, s :: rest, conns⟩ =
      some [(s, 0), ((s :: rest).getLastD "", rest.length)] := by
  have hlast : (s :: rest).getLast?.getD "" = (s :: rest)[rest.length] := by
    rw [List.getLast?_eq_getElem?]
    simp
  simp [Route.getOpenStations, List.getLastD_eq_getLast?, hlast]

/-- C10: `getOpenStations` raises (modelled `none`) exactly on a route with
zero stations; on any other route it returns the two entries
`(first station, 0)` and `(last station, nStations() - 1)`, so a
single-station route yields the same station twice, both with index 0. -/
theorem claim10_getOpenStations_spec (rt : Route) :
    (Route.getOpenStations rt = none ↔ rt.stations = []) ∧
    (rt.stations ≠ [] →
      Route.getOpenStations rt =
        some [(rt.stations.headI, 0),
              (rt.stations.getLastD "", rt.stations.length - 1)]) ∧
    (rt.stations.length = 1 →
      Route.getOpenStations rt =
        some [(rt.stations.headI, 0), (rt.stations.headI, 0)]) := by
  obtain ⟨u, stations, conns⟩ := rt
  cases stations with
  | nil =>
    refine ⟨by simp [Route.getOpenStations], by simp, by simp⟩
  | cons s rest =>
    refine ⟨?_, fun _ => ?_, fun h1 => ?_⟩
    · simp [getOpenStations_cons]
    · simpa using getOpenStations_cons u s rest conns
    · have hrest : rest = [] := by
        simpa using h1
      subst hrest
      simpa using getOpenStations_cons u s [] conns

/-- Witness for C10 on the single-station route `[A]` and on `[A, B, C]`. -/
theorem claim10_witness :
    (["A"] ≠ ([] : List String) →
      Route.getOpenStations ⟨2, ["A"], []⟩ =
        some [((["A"] : List String).headI, 0),
              ((["A"] : List String).getLastD "", (["A"] : List String).length - 1)]) ∧
    ((["A"] : List String).length = 1 →
      Route.getOpenStations ⟨2, ["A"], []⟩ =
        some [((["A"] : List String).headI, 0), ((["A"] : List String).headI, 0)]) :=
  ⟨(claim10_getOpenStations_spec ⟨2, ["A"], []⟩).2.1,
   (claim10_getOpenStations_spec ⟨2, ["A"], []⟩).2.2⟩

/-- One hill-climber iteration never decreases the retained best score. -/
theorem hc_step_mono (M : Type) (f : M → ℚ) (μ : M → M) (t : HillClimber M) :
    t.score ≤ (HillClimber.runStep f μ t).score := by
  unfold HillClimber.runStep HillClimber.checkSolution HillClimber.mutateRoute
  dsimp
  split_ifs with hc
  · exact hc
  · exact le_refl _

/-- Across a whole run the retained best score never decreases. -/
theorem hc_run_mono (M : Type) (f : M → ℚ) (μs : List (M → M)) (s : HillClimber M) :
    s.score ≤ (HillClimber.run f μs s).score := by
  induction μs generalizing s with
  | nil => simp [HillClimber.run]
  | cons μ l ih =>
    calc s.score ≤ (HillClimber.runStep f μ s).score := hc_step_mono M f μ s
      _ ≤ (HillClimber.run f l (HillClimber.runStep f μ s)).score :=
          ih (HillClimber.runStep f μ s)
      _ = (HillClimber.run f (μ :: l) s).score := rfl

/-- C3: in every hill-climber iteration the evaluated mutated copy is
accepted iff its score is at least the retained best score; on accept the
retained best score and the score history are updated and the mutated copy
stays the working model, on reject the previously retained model (the
pre-mutation working model) becomes the working copy again with best score
and history unchanged; consequently the retained best score is
non-decreasing across any run. -/
theorem claim3_hillclimb_accept_monotone (M : Type) (f : M → ℚ) (μ : M → M)
    (μs : List (M → M)) (s : HillClimber M) :
    (s.score ≤ f (μ s.workModel) →
      (HillClimber.checkSolution f (HillClimber.mutateRoute μ s)).score = f (μ s.workModel) ∧
      (HillClimber.checkSolution f (HillClimber.mutateRoute μ s)).scores
        = s.scores ++ [(s.iteration, f (μ s.workModel))] ∧
      (HillClimber.checkSolution f (HillClimber.mutateRoute μ s)).workModel = μ s.workModel) ∧
    (¬ s.score ≤ f (μ s.workModel) →
      (HillClimber.checkSolution f (HillClimber.mutateRoute μ s)).workModel = s.workModel ∧
      (HillClimber.checkSolution f (HillClimber.mutateRoute μ s)).score = s.score ∧
      (HillClimber.checkSolution f (HillClimber.mutateRoute μ s)).scores = s.scores) ∧
    s.score ≤ (HillClimber.run f μs s).score := by
  refine ⟨fun h => ?_, fun h => ?_, hc_run_mono M f μs s⟩
  · simp [HillClimber.checkSolution, HillClimber.mutateRoute, h]
  · simp [HillClimber.checkSolution, HillClimber.mutateRoute, h]

/-- Witness for C3: an accepting iteration over the model type `ℚ` with the
identity scoring function. -/
theorem claim3_witness :
    (HillClimber.checkSolution (fun x : ℚ => x)
        (HillClimber.mutateRoute (fun x : ℚ => x + 1) ⟨0, 0, 0, [], 0⟩)).score = 0 + 1 ∧
    (HillClimber.checkSolution (fun x : ℚ => x)
        (HillClimber.mutateRoute (fun x : ℚ => x + 1) ⟨0, 0, 0, [], 0⟩)).scores
      = [] ++ [(0, 0 + 1)] ∧
    (HillClimber.checkSolution (fun x : ℚ => x)
        (HillClimber.mutateRoute (fun x : ℚ => x + 1) ⟨0, 0, 0, [], 0⟩)).workModel = 0 + 1 :=
  (claim3_hillclimb_accept_monotone ℚ (fun x => x) (fun x => x + 1) []
    ⟨0, 0, 0, [], 0⟩).1 (by norm_num)

/-- C7: on every non-empty route, provided every connection duration in the
network is positive, `hasLegalMoves(tMax)` returns `True` exactly when
`getLegalMoves(tMax)` (all optional filters disabled) returns a non-empty
mapping. -/
theorem claim7_hasLegalMoves_iff (g : Graph) (rt : Route) (tMax : ℚ)
    (hne : rt.stations ≠ []) (hpos : ∀ c, 0 < g.dur c) :
    Route.hasLegalMoves g rt tMax = some true ↔
      ∃ l, Route.getLegalMoves g rt tMax = some l ∧ l ≠ [] := by
  obtain ⟨u, stations, conns⟩ := rt
  cases stations with
  | nil => exact absurd rfl hne
  | cons s rest =>
    have hos := getOpenStations_cons u s rest conns
    unfold Route.hasLegalMoves Route.getLegalMoves
    rw [hos]
    set cd := Route.duration g ⟨u, s :: rest, conns⟩ with hcd
    set t := (s :: rest).getLastD "" with ht
    set m := rest.length with hm
    have hany : ∀ x : String,
        ((Station.listStationsOf g x).any (fun q => decide (cd + q.2 < tMax)) = true) ↔
          (Station.listStationsOf g x).filter (fun q => decide (cd + q.2 < tMax)) ≠ [] := by
      intro x
      rw [List.any_eq_true, Ne, List.filter_eq_nil_iff]
      push_neg
      simp
    by_cases htm : tMax ≤ cd
    · have hFnil : ∀ x : String,
          (Station.listStationsOf g x).filter (fun q => decide (cd + q.2 < tMax)) = [] := by
        intro x
        rw [List.filter_eq_nil_iff]
        intro q hq
        obtain ⟨p, hp, hq2⟩ := List.mem_map.mp hq
        have hd := hpos p.2
        simp only [decide_eq_true_eq]
        intro hlt
        rw [← hq2] at hlt
        simp only [Station.listStationsOf] at hlt
        linarith
      rw [if_pos htm]
      simp only [List.foldl_cons, List.foldl_nil, Option.bind_some]
      simp [hFnil]
    · rw [if_neg htm]
      simp only [Option.bind_some, Option.some.injEq, List.any_cons, List.any_nil,
        List.foldl_cons, List.foldl_nil]
      by_cases hA : (Station.listStationsOf g s).filter (fun q => decide (cd + q.2 < tMax)) = []
      · by_cases hB : (Station.listStationsOf g t).filter (fun q => decide (cd + q.2 < tMax)) = []
        · simp [hA, hB, hany]
        · simp [hA, hB, hany]
      · by_cases hm0 : m = 0
        · simp [hA, hm0, hany]
        · by_cases hB : (Station.listStationsOf g t).filter (fun q => decide (cd + q.2 < tMax)) = []
          · simp [hA, hB, hm0, hany]
          · simp [hA, hB, hm0, hany]

/-- Witness for C7 on the single-station route `[A]` in the triangle
network (all durations 1) with `tMax = 5`. -/
theorem claim7_witness :
    Route.hasLegalMoves gT ⟨1, ["A"], []⟩ 5 = some true ↔
      ∃ l, Route.getLegalMoves gT ⟨1, ["A"], []⟩ 5 = some l ∧ l ≠ [] :=
  claim7_hasLegalMoves_iff gT ⟨1, ["A"], []⟩ 5 (by simp) (fun _ => one_pos)
